import Mathlib

/-!
Shallow embedding of the `turbulence` video-processing pipeline
(`src/cloud-functions/video-processor/main.py`) and the job data model
(`src/backend/models/video.py`), with theorems checking the natural-language
specification against the code.

Modelling conventions:
* Python floats (durations, timestamps) are modelled as exact rationals `ℚ`.
* External effects (running `ffprobe`/`ffmpeg`, GCS download/upload, the HTTP
  status API, MongoDB) are oracles supplied through environment records; each
  oracle value describes what the external call would have returned or raised.
* Python exceptions are modelled as `Except String` / `Option String` values
  carrying `str(e)`; an exception object may have an empty string form.
* The driver `process_video` is modelled as a trace-producing interpreter:
  its result records the external events issued (tool invocations and job
  status updates), the exception escaping the invocation (if any), and the
  scratch-directory state at exit.
-/

namespace Turbulence

/-- The `VideoMetadata` record as built by `extract_video_metadata` in
`src/cloud-functions/video-processor/main.py` (and declared in
`src/backend/models/video.py`). `upload_time` is an abstract clock tick. -/
structure VideoMetadata where
  duration_seconds : ℚ
  width : Int
  height : Int
  file_size : Int
  content_type : String
  upload_time : Nat
deriving Repr, DecidableEq

/-- A `ThumbnailOption` as appended by `generate_thumbnails` (and declared in
`src/backend/models/video.py`). -/
structure ThumbnailOption where
  id : String
  url : String
  timestamp_seconds : ℚ
  is_custom : Bool
deriving Repr, DecidableEq

/-- One element of the `processed_formats` list appended by `transcode_video`:
a dict with keys `format`, `url`, `width`, `height`. -/
structure FormatDescriptor where
  format : String
  url : String
  width : Nat
  height : Nat
deriving Repr, DecidableEq

/-- One stream entry of the structured ffprobe output consumed by
`extract_video_metadata`; `width`/`height` may be absent (`.get` defaults). -/
structure StreamInfo where
  codec_type : String
  width : Option Int
  height : Option Int
deriving Repr, DecidableEq

/-- The structured ffprobe output: stream list plus container-level
`format.duration` and `format.size`, each possibly absent. -/
structure ProbeData where
  streams : List StreamInfo
  duration : Option ℚ
  size : Option Int
deriving Repr, DecidableEq

/-- The `for stream in probe_data["streams"]`/`break` loop of
`extract_video_metadata`: the first stream whose `codec_type` is `"video"`. -/
def findVideoStream : List StreamInfo → Option StreamInfo
  | [] => none
  | s :: rest => if s.codec_type = "video" then some s else findVideoStream rest

/-- Embedding of `extract_video_metadata` from `main.py`. The argument is the oracle for
`ffmpeg.probe`: either structured probe data or the diagnostic of the raised
error. Every failure is re-raised as
`ValueError("Failed to extract video metadata: ...")`, including the internal
`ValueError("No video stream found")`, which falls into the generic
`except Exception` handler. Missing numeric fields default to zero. -/
def extract_video_metadata (probeResult : Except String ProbeData) (now : Nat) :
    Except String VideoMetadata :=
  match probeResult with
  | .error e => .error ("Failed to extract video metadata: " ++ e)
  | .ok probe_data =>
    match findVideoStream probe_data.streams with
    | none => .error ("Failed to extract video metadata: " ++ "No video stream found")
    | some video_stream =>
      .ok { duration_seconds := probe_data.duration.getD 0
          , width := video_stream.width.getD 0
          , height := video_stream.height.getD 0
          , file_size := probe_data.size.getD 0
          , content_type := "video/mp4"
          , upload_time := now }

/-- Python `int()` on a rational: truncation toward zero. -/
def pyInt (q : ℚ) : Int := if 0 ≤ q then Int.floor q else -(Int.floor (-q))

/-- ASCII lowercasing of one character, as `str.lower` acts on the ASCII
range of a file name. -/
def charLower (c : Char) : Char :=
  if 65 ≤ c.toNat ∧ c.toNat ≤ 90 then Char.ofNat (c.toNat + 32) else c

/-- The final component of a path (the part after the last `/`). -/
def lastComponent (l : List Char) : List Char :=
  (l.reverse.takeWhile (fun c => c ≠ '/')).reverse

/-- Everything before the last `.` of a name, or the whole name when it has
no dot. -/
def dropLastSuffix (l : List Char) : List Char :=
  match l.reverse.dropWhile (fun c => c ≠ '.') with
  | [] => l
  | _ :: rest => rest.reverse

/-- The `pathlib.Path(p).stem` operation: the final path component with its last suffix
removed (for final components that are nonempty and do not start with a
dot, which covers every name this pipeline builds). -/
def pathStem (p : String) : String :=
  String.mk (dropLastSuffix (lastComponent p.data))

/-- The `timestamps` list of `generate_thumbnails`:
`[duration * 0.1, duration * 0.3, duration * 0.5, duration * 0.7, duration * 0.9]`. -/
def thumbTimestamps (duration : ℚ) : List ℚ :=
  [duration * (1/10), duration * (3/10), duration * (5/10), duration * (7/10),
   duration * (9/10)]

/-- The dict appended to `thumbnails` for loop index `i` and timestamp `t`:
id `f"thumb_{int(timestamp)}s"`, url `/uploads/thumbnails/{base}_thumb_{i}.jpg`,
`is_custom=False`. -/
def mkThumbnailOption (base : String) (i : Nat) (t : ℚ) : ThumbnailOption :=
  { id := "thumb_" ++ toString (pyInt t) ++ "s"
  , url := "/uploads/thumbnails/" ++ base ++ "_thumb_" ++ toString i ++ ".jpg"
  , timestamp_seconds := t
  , is_custom := false }

/-- Embedding of `generate_thumbnails` from `main.py`. `ok i` is the oracle for loop
iteration `i`: `true` when the ffmpeg frame extraction, the blob upload and the
metadata patch all succeed; `false` when any of them raises, in which case the
`except`/`continue` clauses skip the iteration. -/
def generate_thumbnails (ok : Nat → Bool) (metadata : VideoMetadata)
    (original_file_name : String) : List ThumbnailOption :=
  let duration := metadata.duration_seconds
  let base := pathStem original_file_name
  (thumbTimestamps duration).enum.filterMap fun it =>
    if ok it.1 then some (mkThumbnailOption base it.1 it.2) else none

/-- The proportional position of thumbnail attempt `i` within the video
(`0.1, 0.3, 0.5, 0.7, 0.9`). -/
def thumbFraction : Nat → ℚ
  | 0 => 1/10
  | 1 => 3/10
  | 2 => 5/10
  | 3 => 7/10
  | _ => 9/10

/-- Alternative characterization of `generate_thumbnails`: exactly the
successful attempts among indices `0..4`, in order, each built from the
timestamp `duration * fraction`. -/
theorem generate_thumbnails_eq (ok : Nat → Bool) (metadata : VideoMetadata)
    (original_file_name : String) :
    generate_thumbnails ok metadata original_file_name =
      ((List.range 5).filter (fun i => ok i)).map
        (fun i => mkThumbnailOption (pathStem original_file_name) i
          (metadata.duration_seconds * thumbFraction i)) := by
  simp only [generate_thumbnails, thumbTimestamps, List.enum, List.range,
    List.range.loop, List.enumFrom, List.filterMap, List.filter, List.map]
  cases h0 : ok 0 <;> cases h1 : ok 1 <;> cases h2 : ok 2 <;> cases h3 : ok 3 <;>
    cases h4 : ok 4 <;>
    simp [h0, h1, h2, h3, h4, thumbFraction]

/-- One entry of the fixed `formats` ladder of `transcode_video`. -/
structure RungConfig where
  name : String
  width : Nat
  height : Nat
  bitrate : String
  suffix : String
deriving Repr, DecidableEq

/-- The ladder rung at index `i` of the `formats` list in `transcode_video`. -/
def rung : Nat → RungConfig
  | 0 => { name := "mp4_720p", width := 1280, height := 720, bitrate := "2500k",
           suffix := "_720p" }
  | _ => { name := "mp4_480p", width := 854, height := 480, bitrate := "1000k",
           suffix := "_480p" }

/-- The fixed `formats` ladder of `transcode_video`. -/
def formatsLadder : List RungConfig := [rung 0, rung 1]

/-- The dict appended to `processed_formats` for a rung: format name, url
`/uploads/processed/{base}{suffix}.mp4`, width, height. -/
def mkFormatDescriptor (base : String) (fc : RungConfig) : FormatDescriptor :=
  { format := fc.name
  , url := "/uploads/processed/" ++ base ++ fc.suffix ++ ".mp4"
  , width := fc.width
  , height := fc.height }

/-- Embedding of `transcode_video` from `main.py`. `ok i` is the oracle for rung `i`:
`true` when the ffmpeg encode, the blob upload and the metadata patch all
succeed; `false` when any of them raises, in which case the
`except`/`continue` clauses skip the rung. The `metadata` argument is unused
by the source function's body, as in the source. -/
def transcode_video (ok : Nat → Bool) (_metadata : VideoMetadata)
    (original_file_name : String) : List FormatDescriptor :=
  let base := pathStem original_file_name
  formatsLadder.enum.filterMap fun it =>
    if ok it.1 then some (mkFormatDescriptor base it.2) else none

/-- Alternative characterization of `transcode_video`: exactly the successful
rungs among indices `0..1`, in order. -/
theorem transcode_video_eq (ok : Nat → Bool) (metadata : VideoMetadata)
    (original_file_name : String) :
    transcode_video ok metadata original_file_name =
      ((List.range 2).filter (fun i => ok i)).map
        (fun i => mkFormatDescriptor (pathStem original_file_name) (rung i)) := by
  simp only [transcode_video, formatsLadder, List.enum, List.range,
    List.range.loop, List.enumFrom, List.filterMap, List.filter, List.map]
  cases h0 : ok 0 <;> cases h1 : ok 1 <;> simp [h0, h1]

/-- Outcome of the primary `requests.patch` call in `update_processing_job`:
either an HTTP response with a status code, or a raised exception. -/
inductive ApiResult where
  | response (status_code : Nat)
  | exn (msg : String)
deriving Repr, DecidableEq

/-- Outcome of `collection.update_one` in `update_via_mongodb`: either a
result with a matched count, or a raised exception. -/
inductive MongoResult where
  | matched (count : Nat)
  | exn (msg : String)
deriving Repr, DecidableEq

/-- A partial job update document (`update_data`): only the fields the cloud
function ever places in it, each optional as in
`VideoProcessingJobUpdate`. -/
structure JobUpdate where
  status : Option String := none
  metadata : Option VideoMetadata := none
  thumbnail_options : Option (List ThumbnailOption) := none
  processed_formats : Option (List FormatDescriptor) := none
  error_message : Option String := none
  updated_at : Option Nat := none
deriving Repr, DecidableEq

/-- Oracle environment for one status-synchronization attempt: the primary
API outcome, whether `MONGODB_URI` is set, the MongoDB outcome, and the
current time. -/
structure StatusEnv where
  apiResult : ApiResult
  mongoUri : Option String
  mongoResult : MongoResult
  now : Nat
deriving Repr, DecidableEq

/-- A MongoDB `update_one` issued by the fallback path: the
`original_file` key matched on and the `$set` payload. -/
structure MongoWrite where
  key : String
  payload : JobUpdate
deriving Repr, DecidableEq

/-- Embedding of `update_via_mongodb` from `main.py`: raises when `MONGODB_URI` is unset;
otherwise stamps `updated_at` with the current time and issues
`update_one({"original_file": ...}, {"$set": update_data})`. A zero matched
count is only logged. Errors are logged and re-raised. Returns the write
issued (if any) and the exception escaping the call (if any). -/
def update_via_mongodb (env : StatusEnv) (original_file : String)
    (update_data : JobUpdate) : Option MongoWrite × Option String :=
  match env.mongoUri with
  | none => (none, some "MONGODB_URI environment variable not set")
  | some _ =>
    match env.mongoResult with
    | .exn m => (none, some m)
    | .matched _ =>
      (some { key := original_file
            , payload := { update_data with updated_at := some env.now } }, none)

/-- Trace of one `update_processing_job` call: whether the MongoDB fallback
was invoked, the fallback write issued (if any), and the exception escaping
the call (if any). -/
structure SyncTrace where
  fallbackInvoked : Bool
  mongoWrite : Option MongoWrite
  escaped : Option String
deriving Repr, DecidableEq

/-- Embedding of `update_processing_job` from `main.py`: PATCH the status API; a 200
response is success, any other response falls to `update_via_mongodb` inside
the `try`, and a raised exception (from the PATCH itself or from that first
fallback call) is caught by the `except` clause, which calls
`update_via_mongodb` once more; an exception raised there escapes. -/
def update_processing_job (env : StatusEnv) (original_file : String)
    (update_data : JobUpdate) : SyncTrace :=
  match env.apiResult with
  | .response code =>
    if code = 200 then
      { fallbackInvoked := false, mongoWrite := none, escaped := none }
    else
      match update_via_mongodb env original_file update_data with
      | (w, none) => { fallbackInvoked := true, mongoWrite := w, escaped := none }
      | (_, some _) =>
        match update_via_mongodb env original_file update_data with
        | (w2, err2) =>
          { fallbackInvoked := true, mongoWrite := w2, escaped := err2 }
  | .exn _ =>
    match update_via_mongodb env original_file update_data with
    | (w, err) => { fallbackInvoked := true, mongoWrite := w, escaped := err }

/-- Whether the primary status API call came back as the success the code
accepts (`response.status_code == 200`). -/
def primarySuccess (env : StatusEnv) : Bool :=
  match env.apiResult with
  | .response code => code == 200
  | .exn _ => false

/-- The `video_extensions` allowlist of `is_video_file`. -/
def video_extensions : List String :=
  [".mp4", ".mov", ".avi", ".mkv", ".webm", ".quicktime"]

/-- Embedding of `is_video_file` from `main.py`:
`any(filename.lower().endswith(ext) for ext in video_extensions)`. -/
def is_video_file (filename : String) : Bool :=
  video_extensions.any (fun ext => ext.data.isSuffixOf (filename.data.map charLower))

/-- External events issued by one `process_video` invocation:
the `ffprobe -version` availability check, the GCS download attempt, the
`ffmpeg.probe` call, the per-index thumbnail and transcode tool runs, and
each `update_processing_job` call together with its payload. -/
inductive Event where
  | versionCheck
  | download
  | probe
  | thumbnailRun (i : Nat)
  | transcodeRun (i : Nat)
  | statusUpdate (original_file : String) (update_data : JobUpdate)
deriving Repr, DecidableEq

/-- Oracle environment for one `process_video` invocation. `download` is the
outcome of creating the storage client and downloading the blob (`.error`
carries `str(e)` of the raised exception, which may be empty); `probeResult`
is the oracle for `ffmpeg.probe`; `thumbOk`/`rungOk` are the per-item oracles
of the two producer loops; `statusEnv` is the oracle for each
status-synchronization attempt. -/
structure PipelineEnv where
  ffmpegAvailable : Bool
  download : Except String Unit
  probeResult : Except String ProbeData
  now : Nat
  thumbOk : Nat → Bool
  rungOk : Nat → Bool
  statusEnv : StatusEnv

/-- Result of one `process_video` invocation: the events issued, the
exception escaping to the triggering runtime (if any), whether the scratch
directory was allocated, and whether it still exists at exit. -/
structure PipelineResult where
  events : List Event
  escaped : Option String
  tempDirCreated : Bool
  tempDirRemains : Bool
deriving Repr, DecidableEq

/-- The `update_data` dict of the success path of `process_video`. -/
def completedUpdate (metadata : VideoMetadata) (thumbnails : List ThumbnailOption)
    (processed_formats : List FormatDescriptor) : JobUpdate :=
  { status := some "completed"
  , metadata := some metadata
  , thumbnail_options := some thumbnails
  , processed_formats := some processed_formats }

/-- The `update_data` dict of the `except` clause of `process_video`. -/
def failedUpdate (msg : String) : JobUpdate :=
  { status := some "failed", error_message := some msg }

/-- Embedding of `process_video` from `main.py`, as a trace-producing interpreter.
Order of the source: availability check (always runs `ffprobe -version`),
then the `uploads/` prefix and extension filter, then `mkdtemp`, download,
probe, the two producer loops, and the `completed` status update; the
`except` clause records a `failed` status update with `str(e)` and re-raises
(an exception raised by that status update itself supersedes the original);
the `finally` clause removes the scratch directory on every path. -/
def process_video (env : PipelineEnv) (file_name : String) : PipelineResult :=
  let ev0 : List Event := [Event.versionCheck]
  if !env.ffmpegAvailable then
    { events := ev0, escaped := none, tempDirCreated := false, tempDirRemains := false }
  else if !("uploads/".data.isPrefixOf file_name.data && is_video_file file_name) then
    { events := ev0, escaped := none, tempDirCreated := false, tempDirRemains := false }
  else
    match env.download with
    | .error msg =>
      let ud := failedUpdate msg
      let tr := update_processing_job env.statusEnv file_name ud
      { events := ev0 ++ [Event.download, Event.statusUpdate file_name ud]
      , escaped := some (tr.escaped.getD msg)
      , tempDirCreated := true, tempDirRemains := false }
    | .ok _ =>
      match extract_video_metadata env.probeResult env.now with
      | .error msg =>
        let ud := failedUpdate msg
        let tr := update_processing_job env.statusEnv file_name ud
        { events := ev0 ++ [Event.download, Event.probe, Event.statusUpdate file_name ud]
        , escaped := some (tr.escaped.getD msg)
        , tempDirCreated := true, tempDirRemains := false }
      | .ok md =>
        let thumbnails := generate_thumbnails env.thumbOk md file_name
        let processed_formats := transcode_video env.rungOk md file_name
        let ud := completedUpdate md thumbnails processed_formats
        let tr := update_processing_job env.statusEnv file_name ud
        let evs := ev0 ++ [Event.download, Event.probe]
          ++ (List.range 5).map Event.thumbnailRun
          ++ (List.range 2).map Event.transcodeRun
          ++ [Event.statusUpdate file_name ud]
        match tr.escaped with
        | none =>
          { events := evs, escaped := none
          , tempDirCreated := true, tempDirRemains := false }
        | some m =>
          let ud2 := failedUpdate m
          let tr2 := update_processing_job env.statusEnv file_name ud2
          { events := evs ++ [Event.statusUpdate file_name ud2]
          , escaped := some (tr2.escaped.getD m)
          , tempDirCreated := true, tempDirRemains := false }

/-- A JSON-ish value, as stored in the job document. -/
inductive JsonValue where
  | str (s : String)
  | num (n : Int)
  | obj (fields : List (String × JsonValue))

/-- The JSON shape of one `processed_formats` element as the pipeline records
it: an object with keys `format`, `url`, `width`, `height`. -/
def FormatDescriptor.toJson (d : FormatDescriptor) : JsonValue :=
  .obj [("format", .str d.format), ("url", .str d.url),
        ("width", .num d.width), ("height", .num d.height)]

/-- Modelled from `src/backend/models/video.py`: `VideoProcessingJob` and
`VideoProcessingJobUpdate` declare `processed_formats: List[str]`, so the
element type the job data model declares for `processed_formats` is `str`; a
declared `str` field accepts exactly JSON strings, not objects. -/
def validateStrElem : JsonValue → Option String
  | .str s => some s
  | _ => none

/-- The keys of a JSON object (and `[]` for non-objects). -/
def JsonValue.keys : JsonValue → List String
  | .obj fields => fields.map (fun kv => kv.1)
  | _ => []

/-- The `finally` clause of `process_video`: whatever branch was taken, the
scratch directory does not survive the invocation. -/
theorem tempDirRemains_always_false (env : PipelineEnv) (file_name : String) :
    (process_video env file_name).tempDirRemains = false := by
  simp only [process_video]
  repeat' split
  all_goals rfl

/-- A status environment in which the primary API call succeeds with 200. -/
def statusEnvHappy : StatusEnv :=
  { apiResult := .response 200, mongoUri := some "mongodb://db"
  , mongoResult := .matched 1, now := 7 }

/-- C3: for every invocation that reaches scratch-directory allocation, the
per-invocation scratch directory no longer exists on disk when the invocation
exits, on every exit path. -/
theorem c3_scratch_dir_removed_on_exit (env : PipelineEnv) (file_name : String)
    (h : (process_video env file_name).tempDirCreated = true) :
    (process_video env file_name).tempDirRemains = false :=
  tempDirRemains_always_false env file_name

/-- Concrete pipeline environment for the C3 witness: the scratch directory
is allocated (the filter passes) and the download then raises. -/
def c3env : PipelineEnv :=
  { ffmpegAvailable := true
  , download := .error "connection reset"
  , probeResult := .error "unreached"
  , now := 0
  , thumbOk := fun _ => true
  , rungOk := fun _ => true
  , statusEnv := statusEnvHappy }

/-- Witness for C3 at a concrete invocation that allocates the directory. -/
theorem c3_scratch_dir_removed_on_exit_witness :
    (process_video c3env "uploads/clip.mp4").tempDirRemains = false :=
  c3_scratch_dir_removed_on_exit c3env "uploads/clip.mp4" (by decide)

/-- C7 (amended): the driver checks tool availability before everything else,
but absence of the tool is not job-failing: the invocation logs, performs no
status update, allocates nothing, and returns normally without raising. -/
theorem c7_missing_tool_returns_quietly (env : PipelineEnv) (file_name : String)
    (h : env.ffmpegAvailable = false) :
    process_video env file_name =
      { events := [Event.versionCheck], escaped := none
      , tempDirCreated := false, tempDirRemains := false } := by
  unfold process_video
  simp [h]

/-- Concrete pipeline environment for C7: the external tool is missing while
everything else (including the trigger key) is a valid video job. -/
def c7env : PipelineEnv :=
  { ffmpegAvailable := false
  , download := .ok ()
  , probeResult := .error "unreached"
  , now := 0
  , thumbOk := fun _ => true
  , rungOk := fun _ => true
  , statusEnv := statusEnvHappy }

/-- C7 counterexample: with the tool missing and a valid video key, the claim
demands a `failed` status update and a re-raise; the code issues no status
update at all (`events` holds only the availability check) and returns
normally (`escaped = none`). -/
theorem c7_claim_counterexample :
    c7env.ffmpegAvailable = false ∧
    is_video_file "uploads/clip.mp4" = true ∧
    (process_video c7env "uploads/clip.mp4").events = [Event.versionCheck] ∧
    (process_video c7env "uploads/clip.mp4").escaped = none := by decide

/-- Witness for the amended C7 at a concrete invocation. -/
theorem c7_missing_tool_returns_quietly_witness :
    process_video c7env "uploads/clip.mp4" =
      { events := [Event.versionCheck], escaped := none
      , tempDirCreated := false, tempDirRemains := false } :=
  c7_missing_tool_returns_quietly c7env "uploads/clip.mp4" rfl

/-- C8 (amended): for every trigger whose object key fails the `uploads/`
prefix or the extension allowlist, the driver returns immediately: no job is
created or mutated, nothing is raised, no scratch directory is allocated, and
the only external-tool action is the up-front `ffprobe -version`
availability check. -/
theorem c8_filter_rejects_without_job_effects (env : PipelineEnv) (file_name : String)
    (h : ("uploads/".data.isPrefixOf file_name.data && is_video_file file_name) = false) :
    process_video env file_name =
      { events := [Event.versionCheck], escaped := none
      , tempDirCreated := false, tempDirRemains := false } := by
  unfold process_video
  cases hf : env.ffmpegAvailable <;> simp [hf, h]

/-- Concrete pipeline environment for C8: the tool is present, so the
availability check really does execute `ffprobe -version`. -/
def c8env : PipelineEnv :=
  { ffmpegAvailable := true
  , download := .ok ()
  , probeResult := .error "unreached"
  , now := 0
  , thumbOk := fun _ => true
  , rungOk := fun _ => true
  , statusEnv := statusEnvHappy }

/-- C8 counterexample: for the non-video key `uploads/doc.pdf` the claim says
no external tool is invoked, but the driver runs the `ffprobe -version`
availability check (the `versionCheck` event) before the filter; no job is
mutated and nothing else happens. -/
theorem c8_claim_counterexample :
    is_video_file "uploads/doc.pdf" = false ∧
    c8env.ffmpegAvailable = true ∧
    (process_video c8env "uploads/doc.pdf").events = [Event.versionCheck] ∧
    Event.versionCheck ∈ (process_video c8env "uploads/doc.pdf").events ∧
    (process_video c8env "uploads/doc.pdf").escaped = none := by decide

/-- Witness for the amended C8 at a concrete rejected trigger. -/
theorem c8_filter_rejects_without_job_effects_witness :
    process_video c8env "uploads/doc.pdf" =
      { events := [Event.versionCheck], escaped := none
      , tempDirCreated := false, tempDirRemains := false } :=
  c8_filter_rejects_without_job_effects c8env "uploads/doc.pdf" (by decide)

/-- C4 (amended): the fallback direct-datastore write is invoked if and only
if the primary status API call throws or returns a status code other than
exactly 200 (so non-200 2xx codes and 404 also trigger it); when the fallback
issues its write, that write matches on the same `original_file` key and
carries exactly the same update fields plus a fresh `updated_at`. -/
theorem c4_fallback_iff_not_200 (env : StatusEnv) (original_file : String)
    (ud : JobUpdate) :
    (update_processing_job env original_file ud).fallbackInvoked =
      !primarySuccess env ∧
    (∀ w, (update_processing_job env original_file ud).mongoWrite = some w →
      w.key = original_file ∧
      w.payload = { ud with updated_at := some env.now }) := by
  obtain ⟨api, uri, mres, now⟩ := env
  constructor
  · cases api with
    | response code =>
      by_cases hc : code = 200 <;>
        cases uri <;> cases mres <;>
        simp [update_processing_job, update_via_mongodb, primarySuccess, hc]
    | exn m =>
      cases uri <;> cases mres <;>
        simp [update_processing_job, update_via_mongodb, primarySuccess]
  · intro w hw
    cases api with
    | response code =>
      by_cases hc : code = 200 <;>
        cases uri <;> cases mres <;>
        simp [update_processing_job, update_via_mongodb, hc] at hw <;>
        simp [← hw]
    | exn m =>
      cases uri <;> cases mres <;>
        simp [update_processing_job, update_via_mongodb] at hw <;>
        simp [← hw]

/-- Status environment for the C4 witness: the primary call returns 404, the
fallback write succeeds. -/
def c4env : StatusEnv :=
  { apiResult := .response 404, mongoUri := some "mongodb://db"
  , mongoResult := .matched 1, now := 3 }

/-- The fallback write issued in environment `c4env`. -/
def c4write : MongoWrite :=
  { key := "uploads/a.mp4"
  , payload := { failedUpdate "e" with updated_at := some 3 } }

/-- Witness for the amended C4: at a concrete non-200 response the issued
fallback write carries the same fields plus the fresh `updated_at`. -/
theorem c4_fallback_iff_not_200_witness :
    c4write.key = "uploads/a.mp4" ∧
    c4write.payload = { failedUpdate "e" with updated_at := some 3 } :=
  (c4_fallback_iff_not_200 c4env "uploads/a.mp4" (failedUpdate "e")).2
    c4write (by decide)

/-- Status environment with a 204 response (a 2xx success per the claim). -/
def c4env204 : StatusEnv :=
  { apiResult := .response 204, mongoUri := some "mongodb://db"
  , mongoResult := .matched 1, now := 3 }

/-- C4 counterexample: the claim takes any 2xx response as success (no
fallback) and says a 404-equivalent response is logged, not retried; the code
invokes the MongoDB fallback for the 2xx response 204 and equally for a 404
response. -/
theorem c4_claim_counterexample :
    (200 ≤ 204 ∧ 204 < 300) ∧
    (update_processing_job c4env204 "uploads/a.mp4" (failedUpdate "e")).fallbackInvoked
      = true ∧
    (update_processing_job c4env "uploads/a.mp4" (failedUpdate "e")).fallbackInvoked
      = true := by decide

/-- C5: the Thumbnail Generator returns at most 5 options, each with
`is_custom = false` and a timestamp among the five relative timestamps
10%, 30%, 50%, 70%, 90% of the duration, and the returned list is exactly
the (possibly empty) in-order subset of the five attempts whose external
steps succeeded — one attempt's failure only drops its own entry. -/
theorem c5_thumbnail_generator_contract (ok : Nat → Bool) (metadata : VideoMetadata)
    (original_file_name : String) :
    (generate_thumbnails ok metadata original_file_name).length ≤ 5 ∧
    (∀ t ∈ generate_thumbnails ok metadata original_file_name,
      t.is_custom = false ∧
      t.timestamp_seconds ∈ thumbTimestamps metadata.duration_seconds) ∧
    generate_thumbnails ok metadata original_file_name =
      ((List.range 5).filter (fun i => ok i)).map
        (fun i => mkThumbnailOption (pathStem original_file_name) i
          (metadata.duration_seconds * thumbFraction i)) := by
  refine ⟨?_, ?_, generate_thumbnails_eq ok metadata original_file_name⟩
  · rw [generate_thumbnails_eq]
    rw [List.length_map]
    exact le_trans (List.length_filter_le _ _) (by simp)
  · intro t ht
    rw [generate_thumbnails_eq] at ht
    simp only [List.mem_map, List.mem_filter, List.mem_range] at ht
    obtain ⟨i, ⟨hi5, _⟩, rfl⟩ := ht
    refine ⟨rfl, ?_⟩
    interval_cases i <;>
      simp [thumbTimestamps, thumbFraction, mkThumbnailOption]

/-- Metadata record for the C5 witness (20-second source). -/
def c5md : VideoMetadata :=
  { duration_seconds := 20, width := 1920, height := 1080, file_size := 1000
  , content_type := "video/mp4", upload_time := 0 }

/-- The first thumbnail produced for `c5md` when every attempt succeeds. -/
def c5thumb : ThumbnailOption :=
  mkThumbnailOption (pathStem "uploads/clip.mp4") 0
    (c5md.duration_seconds * thumbFraction 0)

/-- Witness for C5: a concrete produced thumbnail is non-custom and sits at
one of the five relative timestamps. -/
theorem c5_thumbnail_generator_contract_witness :
    c5thumb.is_custom = false ∧
    c5thumb.timestamp_seconds ∈ thumbTimestamps c5md.duration_seconds :=
  (c5_thumbnail_generator_contract (fun _ => true) c5md "uploads/clip.mp4").2.1
    c5thumb
    (by rw [generate_thumbnails_eq]
        exact List.mem_map_of_mem _ (by decide))

/-- C6: the Transcode Ladder Engine returns at most 2 (the ladder size)
formats, the result is exactly the in-order subset of the two rungs whose
encode succeeded, and a rung that succeeds contributes its descriptor
whatever happened to the sibling rung. -/
theorem c6_transcode_ladder_contract (ok : Nat → Bool) (metadata : VideoMetadata)
    (original_file_name : String) :
    (transcode_video ok metadata original_file_name).length ≤ 2 ∧
    transcode_video ok metadata original_file_name =
      ((List.range 2).filter (fun i => ok i)).map
        (fun i => mkFormatDescriptor (pathStem original_file_name) (rung i)) ∧
    (∀ i, i < 2 → ok i = true →
      mkFormatDescriptor (pathStem original_file_name) (rung i) ∈
        transcode_video ok metadata original_file_name) := by
  refine ⟨?_, transcode_video_eq ok metadata original_file_name, ?_⟩
  · rw [transcode_video_eq]
    rw [List.length_map]
    exact le_trans (List.length_filter_le _ _) (by simp)
  · intro i hi hok
    rw [transcode_video_eq]
    exact List.mem_map_of_mem _ (by simp [List.mem_filter, List.mem_range, hi, hok])

/-- Metadata record for the C6 witness (its fields are unused by the
transcoder, as in the source). -/
def c6md : VideoMetadata :=
  { duration_seconds := 20, width := 1920, height := 1080, file_size := 1000
  , content_type := "video/mp4", upload_time := 0 }

/-- Witness for C6: with rung 0 failing and rung 1 succeeding, rung 1 still
contributes its descriptor. -/
theorem c6_transcode_ladder_contract_witness :
    mkFormatDescriptor (pathStem "uploads/clip.mp4") (rung 1) ∈
      transcode_video (fun i => i == 1) c6md "uploads/clip.mp4" :=
  (c6_transcode_ladder_contract (fun i => i == 1) c6md "uploads/clip.mp4").2.2
    1 (by decide) (by decide)

/-- Metadata record for C10: a 4.0-second source. -/
def c10md : VideoMetadata :=
  { duration_seconds := 4, width := 640, height := 360, file_size := 100
  , content_type := "video/mp4", upload_time := 0 }

/-- C10: thumbnail ids are derived from the integer part of the timestamp, so
a 4.0-second video yields timestamps 0.4, 1.2, 2.0, 2.8, 3.6 whose ids are
thumb_0s, thumb_1s, thumb_2s, thumb_2s, thumb_3s — the attempts at 2.0s and
2.8s collide on id `thumb_2s`, so the id list is not duplicate-free. -/
theorem c10_duplicate_thumbnail_ids :
    ((generate_thumbnails (fun _ => true) c10md "uploads/video.mp4").map
        (fun t => t.timestamp_seconds) = [2/5, 6/5, 2, 14/5, 18/5]) ∧
    ((generate_thumbnails (fun _ => true) c10md "uploads/video.mp4").map
        (fun t => t.id) =
      ["thumb_0s", "thumb_1s", "thumb_2s", "thumb_2s", "thumb_3s"]) ∧
    ¬ ((generate_thumbnails (fun _ => true) c10md "uploads/video.mp4").map
        (fun t => t.id)).Nodup := by
  have hid : (generate_thumbnails (fun _ => true) c10md "uploads/video.mp4").map
      (fun t => t.id) = ["thumb_0s", "thumb_1s", "thumb_2s", "thumb_2s", "thumb_3s"] := by
    rw [generate_thumbnails_eq]
    simp only [show (List.range 5) = [0, 1, 2, 3, 4] from rfl, List.map]
    norm_num [thumbFraction, mkThumbnailOption, c10md, pyInt]
    decide
  refine ⟨?_, hid, ?_⟩
  · rw [generate_thumbnails_eq]
    simp only [show (List.range 5) = [0, 1, 2, 3, 4] from rfl, List.map]
    norm_num [thumbFraction, mkThumbnailOption, c10md]
  · rw [hid]
    decide

/-- Metadata record for C9 (its fields are unused by the transcoder). -/
def c9md : VideoMetadata :=
  { duration_seconds := 20, width := 1920, height := 1080, file_size := 1000
  , content_type := "video/mp4", upload_time := 0 }

/-- C9: each element the pipeline records in `processed_formats` is a rung
descriptor object with exactly the keys format, url, width, height — but no
such element conforms to the element type the job data model declares, since
`VideoProcessingJob`/`VideoProcessingJobUpdate` declare
`processed_formats: List[str]` and an object is not a `str`
(`validateStrElem` rejects every recorded element). -/
theorem c9_processed_formats_elements_not_str :
    (transcode_video (fun _ => true) c9md "uploads/clip.mp4" =
      [ { format := "mp4_720p", url := "/uploads/processed/clip_720p.mp4"
        , width := 1280, height := 720 }
      , { format := "mp4_480p", url := "/uploads/processed/clip_480p.mp4"
        , width := 854, height := 480 } ]) ∧
    ((transcode_video (fun _ => true) c9md "uploads/clip.mp4").map
        (fun d => d.toJson.keys) =
      [["format", "url", "width", "height"], ["format", "url", "width", "height"]]) ∧
    ((transcode_video (fun _ => true) c9md "uploads/clip.mp4").map
        (fun d => validateStrElem d.toJson) = [none, none]) := by
  refine ⟨by decide, ?_, ?_⟩ <;>
    simp only [show transcode_video (fun _ => true) c9md "uploads/clip.mp4" =
      [ { format := "mp4_720p", url := "/uploads/processed/clip_720p.mp4"
        , width := 1280, height := 720 }
      , { format := "mp4_480p", url := "/uploads/processed/clip_480p.mp4"
        , width := 854, height := 480 } ] from by decide, List.map] <;>
    rfl

/-- A string carrying the metadata-failure diagnostic is never empty. -/
theorem metadata_diagnostic_nonempty (e : String) :
    ("Failed to extract video metadata: " ++ e) ≠ "" := by
  intro hm
  have hlen := congrArg String.length hm
  rw [String.length_append] at hlen
  have h34 : ("Failed to extract video metadata: ").length = 34 := by decide
  have h0 : ("" : String).length = 0 := by decide
  rw [h34, h0] at hlen
  omega

/-- Every error the Media Prober raises carries the non-empty
`Failed to extract video metadata:` diagnostic. -/
theorem extract_video_metadata_error_nonempty (pr : Except String ProbeData)
    (now : Nat) (m : String)
    (h : extract_video_metadata pr now = .error m) : m ≠ "" := by
  cases pr with
  | error e =>
    simp only [extract_video_metadata, Except.error.injEq] at h
    rw [← h]
    exact metadata_diagnostic_nonempty e
  | ok pd =>
    simp only [extract_video_metadata] at h
    cases hfs : findVideoStream pd.streams with
    | none =>
      rw [hfs] at h
      simp only [Except.error.injEq] at h
      rw [← h]
      exact metadata_diagnostic_nonempty "No video stream found"
    | some vs =>
      rw [hfs] at h
      exact absurd h (by simp)

/-- C2 (amended): whenever the Media Prober fails or an unhandled exception
escapes the pipeline after the input filter passes, the driver records status
`failed` with `error_message` set to the exception's diagnostic string via
the status-update path — non-empty whenever the Media Prober failed, though
an exception whose string form is empty yields an empty `error_message` —
and the invocation then exits exceptionally; what escapes is the original
error, unless the `failed` status update itself raised. -/
theorem c2_failure_recorded_then_reraised (env : PipelineEnv)
    (file_name msg : String)
    (hA : env.ffmpegAvailable = true)
    (hF : ("uploads/".data.isPrefixOf file_name.data && is_video_file file_name) = true)
    (hE : env.download = .error msg ∨
      (env.download = .ok () ∧
        extract_video_metadata env.probeResult env.now = .error msg)) :
    Event.statusUpdate file_name (failedUpdate msg) ∈
      (process_video env file_name).events ∧
    (process_video env file_name).escaped.isSome = true ∧
    ((update_processing_job env.statusEnv file_name (failedUpdate msg)).escaped = none →
      (process_video env file_name).escaped = some msg) ∧
    (env.download = .ok () → msg ≠ "") := by
  rcases hE with hdl | ⟨hok, hex⟩
  · refine ⟨?_, ?_, ?_, ?_⟩
    · simp [process_video, hA, hF, hdl]
    · simp [process_video, hA, hF, hdl]
    · intro hesc
      simp [process_video, hA, hF, hdl, hesc]
    · intro hok'
      rw [hdl] at hok'
      exact absurd hok' (by simp)
  · refine ⟨?_, ?_, ?_, ?_⟩
    · simp [process_video, hA, hF, hok, hex]
    · simp [process_video, hA, hF, hok, hex]
    · intro hesc
      simp [process_video, hA, hF, hok, hex, hesc]
    · intro _
      exact extract_video_metadata_error_nonempty env.probeResult env.now msg hex

/-- Pipeline environment for the C2 witness: a source whose probe finds no
usable data (the tool raises with diagnostic `boom`); the status API works. -/
def c2envW : PipelineEnv :=
  { ffmpegAvailable := true
  , download := .ok ()
  , probeResult := .error "boom"
  , now := 0
  , thumbOk := fun _ => true
  , rungOk := fun _ => true
  , statusEnv := statusEnvHappy }

/-- Witness for the amended C2 at a concrete probe failure. -/
theorem c2_failure_recorded_then_reraised_witness :
    Event.statusUpdate "uploads/clip.mp4"
        (failedUpdate "Failed to extract video metadata: boom") ∈
      (process_video c2envW "uploads/clip.mp4").events :=
  (c2_failure_recorded_then_reraised c2envW "uploads/clip.mp4"
    "Failed to extract video metadata: boom" rfl (by decide)
    (Or.inr ⟨rfl, rfl⟩)).1

/-- Pipeline environment for the C2 counterexample: after the filter passes,
the download raises an exception whose string form is empty (as
`str(Exception())` is in Python); the status API works. -/
def c2env : PipelineEnv :=
  { ffmpegAvailable := true
  , download := .error ""
  , probeResult := .error "unreached"
  , now := 0
  , thumbOk := fun _ => true
  , rungOk := fun _ => true
  , statusEnv := statusEnvHappy }

/-- C2 counterexample: an unhandled exception with an empty string form is
recorded with `error_message = ""`, so the recorded `error_message` is not
non-empty as the claim states (the `failed` record and the re-raise do
happen). -/
theorem c2_claim_counterexample :
    (process_video c2env "uploads/clip.mp4").events =
      [Event.versionCheck, Event.download,
       Event.statusUpdate "uploads/clip.mp4" (failedUpdate "")] ∧
    (failedUpdate "").error_message = some "" ∧
    (process_video c2env "uploads/clip.mp4").escaped = some "" := by decide

/-- C1 (amended): for every invocation whose Media Prober step succeeds, the
pipeline records a `completed` status update carrying the extracted metadata
and exactly the thumbnails and formats the producers managed to build —
whatever subset of the per-thumbnail and per-rung attempts succeeded — and,
provided that status write does not itself raise, it is the final event of
the invocation and nothing escapes. -/
theorem c1_completed_recorded (env : PipelineEnv) (file_name : String)
    (md : VideoMetadata)
    (hA : env.ffmpegAvailable = true)
    (hF : ("uploads/".data.isPrefixOf file_name.data && is_video_file file_name) = true)
    (hD : env.download = .ok ())
    (hM : extract_video_metadata env.probeResult env.now = .ok md) :
    Event.statusUpdate file_name
        (completedUpdate md (generate_thumbnails env.thumbOk md file_name)
          (transcode_video env.rungOk md file_name)) ∈
      (process_video env file_name).events ∧
    ((update_processing_job env.statusEnv file_name
        (completedUpdate md (generate_thumbnails env.thumbOk md file_name)
          (transcode_video env.rungOk md file_name))).escaped = none →
      process_video env file_name =
        { events := [Event.versionCheck] ++ [Event.download, Event.probe]
            ++ (List.range 5).map Event.thumbnailRun
            ++ (List.range 2).map Event.transcodeRun
            ++ [Event.statusUpdate file_name
                (completedUpdate md (generate_thumbnails env.thumbOk md file_name)
                  (transcode_video env.rungOk md file_name))]
        , escaped := none, tempDirCreated := true, tempDirRemains := false }) := by
  constructor
  · cases hesc : (update_processing_job env.statusEnv file_name
        (completedUpdate md (generate_thumbnails env.thumbOk md file_name)
          (transcode_video env.rungOk md file_name))).escaped <;>
      simp [process_video, hA, hF, hD, hM, hesc]
  · intro hesc
    simp [process_video, hA, hF, hD, hM, hesc]

/-- Metadata extracted from the C1 probe data. -/
def c1md : VideoMetadata :=
  { duration_seconds := 20, width := 1920, height := 1080, file_size := 1000
  , content_type := "video/mp4", upload_time := 0 }

/-- Pipeline environment for the C1 witness: probing succeeds, one thumbnail
attempt and one rung fail, the status API works. -/
def c1envW : PipelineEnv :=
  { ffmpegAvailable := true
  , download := .ok ()
  , probeResult := .ok
      { streams := [{ codec_type := "video", width := some 1920, height := some 1080 }]
      , duration := some 20, size := some 1000 }
  , now := 0
  , thumbOk := fun i => !(i == 2)
  , rungOk := fun i => i == 1
  , statusEnv := statusEnvHappy }

/-- Witness for the amended C1: with partial producer failures the
`completed` update carrying the produced subsets is recorded. -/
theorem c1_completed_recorded_witness :
    Event.statusUpdate "uploads/clip.mp4"
        (completedUpdate c1md
          (generate_thumbnails c1envW.thumbOk c1md "uploads/clip.mp4")
          (transcode_video c1envW.rungOk c1md "uploads/clip.mp4")) ∈
      (process_video c1envW "uploads/clip.mp4").events :=
  (c1_completed_recorded c1envW "uploads/clip.mp4" c1md rfl (by decide) rfl
    rfl).1

/-- Pipeline environment for the C1 counterexample: probing succeeds but the
status synchronizer cannot record anything (the API call raises and
`MONGODB_URI` is unset, so the fallback raises too). -/
def c1env : PipelineEnv :=
  { ffmpegAvailable := true
  , download := .ok ()
  , probeResult := .ok
      { streams := [{ codec_type := "video", width := some 1920, height := some 1080 }]
      , duration := some 20, size := some 1000 }
  , now := 0
  , thumbOk := fun _ => true
  , rungOk := fun _ => true
  , statusEnv :=
      { apiResult := .exn "connection timeout", mongoUri := none
      , mongoResult := .matched 1, now := 9 } }

/-- C1 counterexample: the Media Prober succeeds, yet the invocation's final
recorded status attempt is `failed` and an exception escapes — the job's
final status is not `completed` as the claim states, because the `completed`
status write itself raised. -/
theorem c1_claim_counterexample :
    extract_video_metadata c1env.probeResult c1env.now = .ok c1md ∧
    (process_video c1env "uploads/clip.mp4").escaped =
      some "MONGODB_URI environment variable not set" ∧
    (process_video c1env "uploads/clip.mp4").events.getLast? =
      some (Event.statusUpdate "uploads/clip.mp4"
        (failedUpdate "MONGODB_URI environment variable not set")) :=
  ⟨rfl, by decide, by decide⟩

end Turbulence
